import Mathlib

/-
Verification of the two-party state-channel synchronization protocol
(outbound update driver and inbound update handler) against its
specification.

The embedding is a direct, executable translation of the protocol module
(`outbound`, `inbound`, `processChannelMessage`, and their local helpers
`generatePromise`, `sendWithRetry`, `handleError`).  External capabilities
(store, messaging transport, signer, update application, signature
verification) are passed in as an explicit environment; each handler
invocation returns a trace recording every side effect it performed
(store writes, wire sends, event-bus posts) together with its outcome
(normal return, thrown protocol error, or a raw runtime error).  Absent
values (`undefined` in the source language) are modelled with `Option`,
and an access of a property of an absent value inside a try/catch is
modelled as the catch firing.
-/

set_option autoImplicit false

namespace VectorSync

/-- Modelled from the spec: the `UpdateType` tag lives in the types module,
which is not under src/.  The spec says the tag is e.g. `setup`, and that the
other variants are left abstract to this core. -/
inductive UpdateType
  | setup
  | other
deriving DecidableEq

/-- Modelled from the spec: `MultisigCommitment` (types module, not under
src/) carries an ordered set of signatures over a deterministic hash of its
underlying update. -/
structure MultisigCommitment where
  hash : String
  signatures : List String
deriving DecidableEq

/-- Modelled from the spec: `getHash` returns the commitment's deterministic
hash (the source calls `commitment.getHash()`). -/
def MultisigCommitment.getHash (c : MultisigCommitment) : String :=
  c.hash

/-- Modelled from the spec: `addSignature` (types module, not under src/)
attaches a further signature to the commitment's ordered set. -/
def addSignature (c : MultisigCommitment) (sig : String) : MultisigCommitment :=
  { c with signatures := c.signatures ++ [sig] }

/-- Modelled from the spec: `ChannelUpdate` (types module, not under src/):
channel address, strictly-increasing nonce, the counterparty's public
identifier, a type tag, and a multisig commitment.  The type-specific
payload is abstract to this core and omitted. -/
structure ChannelUpdate where
  channelAddress : String
  nonce : Nat
  counterpartyPublicIdentifier : String
  type : UpdateType
  commitment : MultisigCommitment
deriving DecidableEq

/-- Modelled from the spec: `ChannelState` (types module, not under src/):
address, the two participants, chain id, `latestNonce`, and the optional
`latestUpdate` (absent only for a just-created channel). -/
structure ChannelState where
  channelAddress : String
  participants : List String
  chainId : Nat
  latestNonce : Nat
  latestUpdate : Option ChannelUpdate
deriving DecidableEq

/-- The closed taxonomy of `ChannelUpdateError` reason codes (errors module,
not under src/; the set is exactly the one the protocol module references). -/
inductive Reason
  | ChannelNotFound
  | BadSignatures
  | StaleUpdateNonce
  | StaleChannelNonce
  | StaleChannelNonceNoUpdate
  | ApplyUpdateFailed
  | SaveChannelFailed
  | MessageFailed
deriving DecidableEq

/-- The optional structured context attached to a `ChannelUpdateError`
(the source passes ad-hoc objects; these are the fields it actually uses.
The JS stack-trace field is omitted as meaningless in the model). -/
structure ErrorContext where
  counterpartyLatestUpdate : Option ChannelUpdate
  requestedUpdate : Option ChannelUpdate
  error : Option String
deriving DecidableEq

/-- The empty error context (constructor calls that pass no context). -/
def noCtx : ErrorContext := ⟨none, none, none⟩

/-- `ChannelUpdateError`: reason code (stored in `message`, as in the
source), the update that triggered it, the channel state known at the
time, and optional context.  `update` and `state` are optional because the
source constructs errors with `undefined` in either position (e.g.
`ChannelNotFound` carries an absent state). -/
structure ChannelUpdateError where
  message : Reason
  update : Option ChannelUpdate
  state : Option ChannelState
  context : ErrorContext
deriving DecidableEq

/-- The `data` payload of the channel-message variant of `VectorMessage`:
`{update, latestUpdate}`, with `latestUpdate` possibly absent. -/
structure MessageData where
  update : ChannelUpdate
  latestUpdate : Option ChannelUpdate
deriving DecidableEq

/-- Modelled from the spec: `VectorMessage` (types module, not under src/)
is the wire envelope, polymorphic over a channel-message variant
`{from, data}` and an error variant `{from, error}`.  We model it
structurally: `data` present marks the channel variant (this is how the
missing `isChannelMessage` type guard from the utils module is modelled);
the `error` field is whatever the envelope carries, possibly absent even
on a non-channel message. -/
structure VectorMessage where
  from_ : String
  data : Option MessageData
  error : Option ChannelUpdateError
deriving DecidableEq

/-- A payload sent over the messaging service back to a peer: either a
`ChannelUpdateError` reply or a `{update, latestUpdate}` channel payload. -/
inductive SentPayload
  | errorMsg (recipient : String) (error : ChannelUpdateError)
  | channelMsg (recipient : String) (update : ChannelUpdate) (latestUpdate : Option ChannelUpdate)
deriving DecidableEq

/-- The outcome of one `generatePromise` round trip in the outbound driver:
the send rejected at transport level, or the race of the two event-bus
subscriptions resolved with a channel state or with a protocol error. -/
inductive AttemptOutcome
  | sendFail (msg : String)
  | state (s : ChannelState)
  | channelError (e : ChannelUpdateError)
deriving DecidableEq

/-- Recognizer for transport-level rejection of an attempt. -/
def AttemptOutcome.isSendFail : AttemptOutcome → Bool
  | .sendFail _ => true
  | .state _ => false
  | .channelError _ => false

/-- The environment of external capabilities consumed by the protocol:
store (`getChannelState` / `saveChannelState`, the latter returning
`some msg` on persistence failure), update application (`Except` failure),
signature verification (`assertSignatures c = none` iff every present
signature verifies), the signer, and, for the outbound driver, the
environmental outcome of each round-trip attempt (`attempt round try`). -/
structure Env where
  getChannelState : String → Option ChannelState
  saveChannelState : ChannelState → Option String
  applyUpdate : ChannelUpdate → ChannelState → Except String ChannelState
  assertSignatures : MultisigCommitment → Option String
  signMessage : String → String
  publicIdentifier : String
  chainId : Nat
  attempt : Nat → Nat → AttemptOutcome

/-- Modelled from the spec: the external Update-Application function
(`applyUpdate` of the update module, not under src/).  Per the contract,
it deterministically produces the next channel state or fails when the
update is inapplicable to the given prior state (wrong nonce); the
resulting state's `latestNonce` mirrors the applied update's nonce and
its `latestUpdate` is that update. -/
def applyUpdate (u : ChannelUpdate) (s : ChannelState) : Except String ChannelState :=
  if u.nonce = s.latestNonce + 1 then
    .ok { s with latestNonce := u.nonce, latestUpdate := some u }
  else
    .error "update nonce does not extend the prior state"

/-- The predicate the outbound driver's error-bus subscription pipes on,
translated verbatim from the source:
`e.update.nonce === update.nonce && e.update.channelAddress === e.update.channelAddress`.
Note the second conjunct compares the incoming error's own channel address
with itself.  An error whose `update` is absent would crash the pipe in the
source; no live path posts one, and we return `false` there. -/
def errorEvtFilter (update : ChannelUpdate) (e : ChannelUpdateError) : Bool :=
  match e.update with
  | some eu => eu.nonce == update.nonce && eu.channelAddress == eu.channelAddress
  | none => false

/-- The predicate the outbound driver's state-bus subscription pipes on:
`e.channelAddress === update.channelAddress && e.latestNonce === update.nonce`. -/
def stateEvtFilter (update : ChannelUpdate) (e : ChannelState) : Bool :=
  e.channelAddress == update.channelAddress && e.latestNonce == update.nonce

/-- Result of the outbound driver's `sendWithRetry` helper: the resolved
value (a channel state or a protocol error delivered over the event bus),
or the thrown `MessageFailed` error once the attempt budget is exhausted;
plus the number of attempts made and the delays taken between attempts. -/
structure RetryResult where
  result : Except ChannelUpdateError (ChannelState ⊕ ChannelUpdateError)
  attemptsMade : Nat
  delays : List Nat

/-- The body of `sendWithRetry`: loop over the remaining attempt budget;
a resolved attempt returns immediately, a transport-level rejection logs,
delays 3000 time units and retries; an exhausted budget throws
`MessageFailed` carrying the proposed update and the stored channel. -/
def sendWithRetryGo (update : ChannelUpdate) (storedChannel : ChannelState)
    (outcomes : Nat → AttemptOutcome) (i : Nat) (fuel : Nat) : RetryResult :=
  match fuel with
  | 0 => { result := .error ⟨.MessageFailed, some update, some storedChannel, noCtx⟩,
           attemptsMade := 0, delays := [] }
  | fuel + 1 =>
    match outcomes i with
    | .state s => { result := .ok (.inl s), attemptsMade := 1, delays := [] }
    | .channelError e => { result := .ok (.inr e), attemptsMade := 1, delays := [] }
    | .sendFail _ =>
      let r := sendWithRetryGo update storedChannel outcomes (i + 1) fuel
      { result := r.result, attemptsMade := r.attemptsMade + 1, delays := 3000 :: r.delays }

/-- `sendWithRetry`: retry the full round-trip attempt up to 5 times. -/
def sendWithRetry (update : ChannelUpdate) (storedChannel : ChannelState)
    (outcomes : Nat → AttemptOutcome) : RetryResult :=
  sendWithRetryGo update storedChannel outcomes 0 5

/-- How the outbound driver can fail: a thrown `ChannelUpdateError`, or a
raw runtime error (the source dereferences `result.state.latestUpdate`
without checking that `result.state` is present). -/
inductive OutboundFailure
  | channelError (e : ChannelUpdateError)
  | jsError (msg : String)

/-- The outbound driver's observable behavior: its result and the store
writes it performed. -/
structure OutboundResult where
  result : Except OutboundFailure ChannelState
  saves : List ChannelState

/-- The retry of the original update after a successful resync (source:
`const syncedResult = await sendWithRetry()` and the lines after it): one
more full `sendWithRetry` round with the original update; a resolved
channel state is returned as the success value, any other outcome —
whatever its reason, `StaleUpdateNonce` included — is thrown wrapped with
the original update and the resynced state; there is no second resync. -/
def outboundSecondRound (update : ChannelUpdate) (env : Env)
    (storedChannel newState : ChannelState) : OutboundResult :=
  match (sendWithRetry update storedChannel (env.attempt 1)).result with
  | .error me2 => { result := .error (.channelError me2), saves := [newState] }
  | .ok (.inl st2) => { result := .ok st2, saves := [newState] }
  | .ok (.inr e2) =>
    { result := .error (.channelError ⟨e2.message, some update, some newState, noCtx⟩),
      saves := [newState] }

/-- The resync step of the outbound driver, entered with the counterparty's
latest update taken from the `StaleUpdateNonce` error's attached state: a
nonce mismatch with the proposed update is `StaleChannelNonce`; otherwise
apply it to the stored channel (`ApplyUpdateFailed` on failure), persist
the resynced state (`SaveChannelFailed` on failure), then run the single
retry round. -/
def outboundResync (update : ChannelUpdate) (env : Env) (storedChannel : ChannelState)
    (counterpartyLatestUpdate : ChannelUpdate) : OutboundResult :=
  if counterpartyLatestUpdate.nonce ≠ update.nonce then
    { result := .error (.channelError
        ⟨.StaleChannelNonce, some update, some storedChannel,
          ⟨some counterpartyLatestUpdate, none, none⟩⟩),
      saves := [] }
  else
    match env.applyUpdate counterpartyLatestUpdate storedChannel with
    | .error _ =>
      { result := .error (.channelError
          ⟨.ApplyUpdateFailed, some counterpartyLatestUpdate, some storedChannel, noCtx⟩),
        saves := [] }
    | .ok newState =>
      match env.saveChannelState newState with
      | some _ =>
        { result := .error (.channelError
            ⟨.SaveChannelFailed, some counterpartyLatestUpdate, some storedChannel, noCtx⟩),
          saves := [newState] }
      | none => outboundSecondRound update env storedChannel newState

/-- Handling of a first-round resolved error in the outbound driver: any
reason other than `StaleUpdateNonce` is rethrown wrapped with the proposed
update and stored channel; for `StaleUpdateNonce` the driver reads
`error.state.latestUpdate` (a raw runtime error when the state is absent —
the source does not guard this access), fails with
`StaleChannelNonceNoUpdate` when the latest update is absent, and
otherwise resyncs from it. -/
def outboundOnError (update : ChannelUpdate) (env : Env) (storedChannel : ChannelState)
    (err : ChannelUpdateError) : OutboundResult :=
  if err.message ≠ Reason.StaleUpdateNonce then
    { result := .error (.channelError ⟨err.message, some update, some storedChannel, noCtx⟩),
      saves := [] }
  else
    match err.state with
    | none =>
      { result := .error (.jsError "TypeError: cannot read latestUpdate of undefined"),
        saves := [] }
    | some errState =>
      match errState.latestUpdate with
      | none =>
        { result := .error (.channelError
            ⟨.StaleChannelNonceNoUpdate, some update, some storedChannel, noCtx⟩),
          saves := [] }
      | some counterpartyLatestUpdate =>
        outboundResync update env storedChannel counterpartyLatestUpdate

/-- The round-trip phase of the outbound driver once the stored channel is
loaded: run `sendWithRetry`; a thrown `MessageFailed` propagates, a
resolved channel state is the success value, a resolved error is handled
by `outboundOnError`. -/
def outboundHandleResult (update : ChannelUpdate) (env : Env)
    (storedChannel : ChannelState) : OutboundResult :=
  match (sendWithRetry update storedChannel (env.attempt 0)).result with
  | .error me => { result := .error (.channelError me), saves := [] }
  | .ok (.inl st) => { result := .ok st, saves := [] }
  | .ok (.inr err) => outboundOnError update env storedChannel err

/-- The outbound update driver, translated from the source.  Load the
stored channel (`ChannelNotFound` if absent), then drive the round trip,
error handling, resync and the single retry through the helpers above. -/
def outbound (update : ChannelUpdate) (env : Env) : OutboundResult :=
  match env.getChannelState update.channelAddress with
  | none =>
    { result := .error (.channelError ⟨.ChannelNotFound, some update, none, noCtx⟩), saves := [] }
  | some storedChannel => outboundHandleResult update env storedChannel

/-- The observable behavior of one inbound handler invocation: the wire
sends it performed, the values posted onto the error event bus (an `Option`
element because the source can post the raw `error` field of a message,
which may be absent), the states posted onto the state event bus, the store
writes it attempted (in order), and its outcome — `none` for a normal
return, `some e` when the invocation terminates by throwing `e` (the
source's `handleError` rethrows so the error propagates to the caller). -/
structure InboundTrace where
  sends : List SentPayload
  errorPosts : List (Option ChannelUpdateError)
  statePosts : List ChannelState
  saves : List ChannelState
  outcome : Option ChannelUpdateError
deriving DecidableEq

/-- The trace of an invocation that returns without doing anything. -/
def emptyTrace : InboundTrace :=
  { sends := [], errorPosts := [], statePosts := [], saves := [], outcome := none }

/-- `processChannelMessage`'s local `handleError` helper: if the requested
update is single signed the counterparty is waiting, so reply with the
error over the messaging service; always post the error to the error event
bus; then throw it. -/
def handleError (from_ : String) (requestedUpdate : ChannelUpdate)
    (error : ChannelUpdateError) : InboundTrace :=
  { sends := if requestedUpdate.commitment.signatures.length = 1
             then [SentPayload.errorMsg from_ error] else [],
    errorPosts := [some error],
    statePosts := [],
    saves := [],
    outcome := some error }

/-- Record an attempted store write in front of a trace (used when a
`saveChannelState` call fails and the handler then runs `handleError`). -/
def withSaveAttempt (s : ChannelState) (t : InboundTrace) : InboundTrace :=
  { t with saves := s :: t.saves }

/-- The signature-verification block of `processChannelMessage`, translated
from the source's try/catch:
first `requestedUpdate.commitment.assertSignatures()`, then
`counterpartyLatestUpdate.commitment.assertSignatures()`.  When
`counterpartyLatestUpdate` is absent, reading its `commitment` property
raises inside the try block, so the catch fires exactly as for an invalid
signature.  Returns `some msg` when the catch fires, `none` otherwise. -/
def assertBothSignatures (env : Env) (requestedUpdate : ChannelUpdate)
    (counterpartyLatestUpdate : Option ChannelUpdate) : Option String :=
  match env.assertSignatures requestedUpdate.commitment with
  | some msg => some msg
  | none =>
    match counterpartyLatestUpdate with
    | none => some "TypeError: cannot read commitment of undefined"
    | some u => env.assertSignatures u.commitment

/-- The empty channel state `processChannelMessage` synthesizes for a
first-ever `setup` update: `latestNonce = 0`, no `latestUpdate`,
participants `[counterparty, self]`, chain id from the signer's provider. -/
def emptyChannelState (env : Env) (requestedUpdate : ChannelUpdate) : ChannelState :=
  { channelAddress := requestedUpdate.channelAddress,
    participants := [requestedUpdate.counterpartyPublicIdentifier, env.publicIdentifier],
    chainId := env.chainId,
    latestNonce := 0,
    latestUpdate := none }

/-- The tail of `processChannelMessage` after the correct prior state has
been established: apply the requested update (`ApplyUpdateFailed` on
failure); if it is single signed, countersign the commitment's hash, save
the applied state (`SaveChannelFailed` on failure) and reply to the sender
with the now dual-signed update and the applied state's `latestUpdate`;
if it is dual signed, save the applied state (`SaveChannelFailed` on
failure) and post it onto the state event bus. -/
def finalizeUpdate (env : Env) (from_ : String) (requestedUpdate : ChannelUpdate)
    (counterpartyLatestUpdate : Option ChannelUpdate)
    (previousState : ChannelState) : InboundTrace :=
  match env.applyUpdate requestedUpdate previousState with
  | .error msg =>
    handleError from_ requestedUpdate
      ⟨.ApplyUpdateFailed, some requestedUpdate, some previousState,
        ⟨counterpartyLatestUpdate, none, some msg⟩⟩
  | .ok response =>
    if requestedUpdate.commitment.signatures.length = 1 then
      match env.saveChannelState response with
      | some msg =>
        withSaveAttempt response
          (handleError from_ requestedUpdate
            ⟨.SaveChannelFailed, some requestedUpdate, some previousState,
              ⟨none, none, some msg⟩⟩)
      | none =>
        { sends := [SentPayload.channelMsg from_
            { requestedUpdate with
                commitment := addSignature requestedUpdate.commitment
                  (env.signMessage requestedUpdate.commitment.getHash) }
            response.latestUpdate],
          errorPosts := [], statePosts := [], saves := [response], outcome := none }
    else
      match env.saveChannelState response with
      | some msg =>
        withSaveAttempt response
          (handleError from_ requestedUpdate
            ⟨.SaveChannelFailed, some requestedUpdate, some previousState,
              ⟨none, none, some msg⟩⟩)
      | none =>
        { sends := [], errorPosts := [], statePosts := [response],
          saves := [response], outcome := none }

/-- The classification core of `processChannelMessage`, run against the
stored (or freshly synthesized) state: verify signatures (`BadSignatures`),
compute `diff = requestedUpdate.nonce - storedState.latestNonce`, reject
`diff <= 0` with `StaleUpdateNonce` (context: the sender's attached latest
update), reject `diff >= 3` with `StaleChannelNonce`, on `diff == 2` first
advance the stored state by the sender's attached latest update
(`StaleChannelNonceNoUpdate` when absent — note the source constructs that
error with the absent update in the update position — `ApplyUpdateFailed`
when it does not apply), then finish with the requested update. -/
def classifyAndApply (env : Env) (from_ : String) (data : MessageData)
    (storedState : ChannelState) : InboundTrace :=
  match assertBothSignatures env data.update data.latestUpdate with
  | some msg =>
    handleError from_ data.update
      ⟨.BadSignatures, some data.update, some storedState,
        ⟨data.latestUpdate, none, some msg⟩⟩
  | none =>
    if (data.update.nonce : Int) - (storedState.latestNonce : Int) ≤ 0 then
      handleError from_ data.update
        ⟨.StaleUpdateNonce, some data.update, some storedState,
          ⟨data.latestUpdate, none, none⟩⟩
    else if 3 ≤ (data.update.nonce : Int) - (storedState.latestNonce : Int) then
      handleError from_ data.update
        ⟨.StaleChannelNonce, some data.update, some storedState,
          ⟨data.latestUpdate, none, none⟩⟩
    else if (data.update.nonce : Int) - (storedState.latestNonce : Int) = 2 then
      match data.latestUpdate with
      | none =>
        handleError from_ data.update
          ⟨.StaleChannelNonceNoUpdate, none, some storedState,
            ⟨none, some data.update, none⟩⟩
      | some clu =>
        match env.applyUpdate clu storedState with
        | .error msg =>
          handleError from_ data.update
            ⟨.ApplyUpdateFailed, some clu, some storedState,
              ⟨none, some data.update, some msg⟩⟩
        | .ok previousState =>
          finalizeUpdate env from_ data.update data.latestUpdate previousState
    else
      finalizeUpdate env from_ data.update data.latestUpdate storedState

/-- `processChannelMessage`: load the stored state for the requested
update's channel; when absent, reject non-`setup` updates with
`ChannelNotFound` (carrying the absent state) and synthesize an empty
channel state for `setup` updates; then classify and apply. -/
def processChannelMessage (env : Env) (from_ : String) (data : MessageData) : InboundTrace :=
  match env.getChannelState data.update.channelAddress with
  | some storedState => classifyAndApply env from_ data storedState
  | none =>
    if data.update.type ≠ UpdateType.setup then
      handleError from_ data.update ⟨.ChannelNotFound, some data.update, none, noCtx⟩
    else
      classifyAndApply env from_ data (emptyChannelState env data.update)

/-- `inbound`: ignore self-loopback messages; hand channel messages to
`processChannelMessage`; for any other message, post its `error` field
onto the error event bus (without validating that the field is present)
and return. -/
def inbound (env : Env) (message : VectorMessage) : InboundTrace :=
  if message.from_ = env.publicIdentifier then
    emptyTrace
  else
    match message.data with
    | some d => processChannelMessage env message.from_ d
    | none => { emptyTrace with errorPosts := [message.error] }

/-
Concrete fixtures used by the witness and counterexample theorems: a
channel at address "chan1" whose stored state is at nonce 5 with a
dual-signed latest update, a single-signed proposal at nonce 6, and an
environment in which every present signature verifies and the store
always saves successfully.
-/

/-- The dual-signed update at nonce 5 held in the stored state. -/
def updPrev : ChannelUpdate :=
  { channelAddress := "chan1", nonce := 5, counterpartyPublicIdentifier := "alice",
    type := .other, commitment := ⟨"h5", ["sigA5", "sigB5"]⟩ }

/-- The stored channel state at nonce 5. -/
def stored5 : ChannelState :=
  { channelAddress := "chan1", participants := ["alice", "bob"], chainId := 1,
    latestNonce := 5, latestUpdate := some updPrev }

/-- A single-signed proposal at nonce 6. -/
def upd6 : ChannelUpdate :=
  { channelAddress := "chan1", nonce := 6, counterpartyPublicIdentifier := "alice",
    type := .other, commitment := ⟨"h6", ["sigA6"]⟩ }

/-- A single-signed proposal at nonce 7 (one update ahead of what a store
at nonce 5 can apply directly). -/
def upd7 : ChannelUpdate :=
  { channelAddress := "chan1", nonce := 7, counterpartyPublicIdentifier := "alice",
    type := .other, commitment := ⟨"h7", ["sigA7"]⟩ }

/-- A single-signed proposal at nonce 8 (gap of 3 over a store at nonce 5). -/
def upd8 : ChannelUpdate :=
  { channelAddress := "chan1", nonce := 8, counterpartyPublicIdentifier := "alice",
    type := .other, commitment := ⟨"h8", ["sigA8"]⟩ }

/-- The base concrete environment: the store knows "chan1" at nonce 5,
saving always succeeds, update application follows the spec contract,
every present signature verifies, and every transport attempt fails (the
attempt outcomes are overridden per witness). -/
def baseEnv : Env :=
  { getChannelState := fun a => if a = "chan1" then some stored5 else none,
    saveChannelState := fun _ => none,
    applyUpdate := applyUpdate,
    assertSignatures := fun _ => none,
    signMessage := fun h => "sigB-" ++ h,
    publicIdentifier := "bob",
    chainId := 1,
    attempt := fun _ _ => .sendFail "transport down" }

/-- The value a resolved (non-transport-failed) attempt delivers to
`sendWithRetry`'s caller. -/
def resolveOf : AttemptOutcome → Except ChannelUpdateError (ChannelState ⊕ ChannelUpdateError)
  | .sendFail _ => .error ⟨.MessageFailed, none, none, noCtx⟩
  | .state s => .ok (.inl s)
  | .channelError e => .ok (.inr e)

/-- The `StaleUpdateNonce` error `processChannelMessage` constructs when the
requested nonce does not exceed the stored nonce: it carries the requested
update, the local stored state (whose `latestUpdate` is the local party's
latest update), and the sender's attached latest update as context. -/
def staleUpdateError (data : MessageData) (stored : ChannelState) : ChannelUpdateError :=
  ⟨.StaleUpdateNonce, some data.update, some stored, ⟨data.latestUpdate, none, none⟩⟩

/-- Shape of every trace that terminates by throwing an error `e`: the
error was posted onto the error event bus exactly once, it was sent back
to the sender exactly when the requested update was single signed, no
state was posted, and — unless the failure was the store write itself —
no store write was attempted. -/
def errorTraceShape (from_ : String) (ru : ChannelUpdate) (t : InboundTrace) : Prop :=
  ∀ e, t.outcome = some e →
    t.errorPosts = [some e]
    ∧ t.sends = (if ru.commitment.signatures.length = 1
                 then [SentPayload.errorMsg from_ e] else [])
    ∧ t.statePosts = []
    ∧ (e.message ≠ Reason.SaveChannelFailed → t.saves = [])

/-- A proposed update at nonce 9 on channel "chanA" (used against the
event-bus error filter). -/
def updC1 : ChannelUpdate :=
  { channelAddress := "chanA", nonce := 9, counterpartyPublicIdentifier := "alice",
    type := .other, commitment := ⟨"h9", ["sigA9"]⟩ }

/-- An event-bus error whose update has the same nonce 9 but lives on a
different channel, "chanB". -/
def errC1 : ChannelUpdateError :=
  ⟨.StaleUpdateNonce,
    some { channelAddress := "chanB", nonce := 9, counterpartyPublicIdentifier := "carl",
           type := .other, commitment := ⟨"hB9", ["sigC9"]⟩ },
    none, noCtx⟩

/-- The counterparty's dual-signed copy of the nonce-6 update (attached to
a `StaleUpdateNonce` error so the outbound driver can resync). -/
def updAck6 : ChannelUpdate :=
  { upd6 with commitment := ⟨"h6", ["sigA6", "sigB6"]⟩ }

/-- The counterparty's state at nonce 6 as attached to its
`StaleUpdateNonce` error. -/
def counterSt6 : ChannelState :=
  { stored5 with latestNonce := 6, latestUpdate := some updAck6 }

/-- A `StaleUpdateNonce` error carrying the counterparty's nonce-6 state. -/
def staleErr6 : ChannelUpdateError :=
  ⟨.StaleUpdateNonce, some upd6, some counterSt6, noCtx⟩

/-- The locally resynced state after applying `updAck6` to `stored5`. -/
def resyncedSt6 : ChannelState :=
  { stored5 with latestNonce := 6, latestUpdate := some updAck6 }

/-- The channel state at nonce 7 delivered by the second outbound round. -/
def st7 : ChannelState :=
  { stored5 with latestNonce := 7 }

/-- Outbound fixture environment: the first round resolves with the
`StaleUpdateNonce` error, the second round resolves with the nonce-7
state. -/
def env4 : Env :=
  { baseEnv with attempt := fun r _ => if r = 0 then .channelError staleErr6 else .state st7 }

/-- The state the inbound handler persists after applying the nonce-6
proposal to `stored5`. -/
def resp6 : ChannelState :=
  { stored5 with latestNonce := 6, latestUpdate := some upd6 }

/-- The `StaleChannelNonce` error produced by the nonce-8 message against
the store at nonce 5. -/
def errC6 : ChannelUpdateError :=
  ⟨.StaleChannelNonce, some upd8, some stored5, ⟨some upd7, none, none⟩⟩

/-- Attempt outcomes where the first two sends fail at transport level and
the third resolves with a channel state. -/
def retryOutcomesW : Nat → AttemptOutcome :=
  fun i => if i = 2 then .state stored5 else .sendFail "transport down"

/-- A `setup` update at nonce 0 for the unknown channel "chan2". -/
def upd0setup : ChannelUpdate :=
  { channelAddress := "chan2", nonce := 0, counterpartyPublicIdentifier := "alice",
    type := .setup, commitment := ⟨"h0", ["sigA0"]⟩ }

/-- A non-channel message from a counterparty whose `error` field is
absent. -/
def msgNoErrW : VectorMessage :=
  ⟨"alice", none, none⟩

/-- `handleError` traces have the error shape. -/
theorem errorShape_handleError (from_ : String) (ru : ChannelUpdate)
    (err : ChannelUpdateError) :
    errorTraceShape from_ ru (handleError from_ ru err) := by
  intro e he
  have hee : err = e := by simpa [handleError] using he
  subst hee
  exact ⟨rfl, rfl, rfl, fun _ => rfl⟩

/-- A trace that returns normally vacuously has the error shape. -/
theorem errorShape_of_none (from_ : String) (ru : ChannelUpdate) (t : InboundTrace)
    (h : t.outcome = none) : errorTraceShape from_ ru t := by
  intro e he
  rw [h] at he
  exact absurd he (by simp)

/-- A failed store write followed by `handleError` on a `SaveChannelFailed`
error has the error shape (the save-attempt record is allowed there). -/
theorem errorShape_saveFailed (from_ : String) (ru : ChannelUpdate)
    (err : ChannelUpdateError) (s : ChannelState)
    (hmsg : err.message = Reason.SaveChannelFailed) :
    errorTraceShape from_ ru (withSaveAttempt s (handleError from_ ru err)) := by
  intro e he
  have hee : err = e := by simpa [withSaveAttempt, handleError] using he
  subst hee
  exact ⟨rfl, rfl, rfl, fun hne => absurd hmsg hne⟩

/-- Every `finalizeUpdate` trace has the error shape. -/
theorem errorShape_finalizeUpdate (env : Env) (from_ : String) (ru : ChannelUpdate)
    (clu : Option ChannelUpdate) (ps : ChannelState) :
    errorTraceShape from_ ru (finalizeUpdate env from_ ru clu ps) := by
  unfold finalizeUpdate
  split
  · exact errorShape_handleError _ _ _
  · split
    · split
      · exact errorShape_saveFailed _ _ _ _ rfl
      · exact errorShape_of_none _ _ _ rfl
    · split
      · exact errorShape_saveFailed _ _ _ _ rfl
      · exact errorShape_of_none _ _ _ rfl

/-- Every `classifyAndApply` trace has the error shape. -/
theorem errorShape_classifyAndApply (env : Env) (from_ : String) (data : MessageData)
    (s : ChannelState) :
    errorTraceShape from_ data.update (classifyAndApply env from_ data s) := by
  unfold classifyAndApply
  split
  · exact errorShape_handleError _ _ _
  · split
    · exact errorShape_handleError _ _ _
    · split
      · exact errorShape_handleError _ _ _
      · split
        · split
          · exact errorShape_handleError _ _ _
          · split
            · exact errorShape_handleError _ _ _
            · exact errorShape_finalizeUpdate _ _ _ _ _
        · exact errorShape_finalizeUpdate _ _ _ _ _

/-- Every `processChannelMessage` trace has the error shape. -/
theorem errorShape_processChannelMessage (env : Env) (from_ : String) (data : MessageData) :
    errorTraceShape from_ data.update (processChannelMessage env from_ data) := by
  unfold processChannelMessage
  split
  · exact errorShape_classifyAndApply _ _ _ _
  · split
    · exact errorShape_handleError _ _ _
    · exact errorShape_classifyAndApply _ _ _ _

/-- `sendWithRetryGo` never makes more attempts than its remaining budget. -/
theorem sendWithRetryGo_attempts_le (u : ChannelUpdate) (s : ChannelState)
    (outcomes : Nat → AttemptOutcome) :
    ∀ fuel i, (sendWithRetryGo u s outcomes i fuel).attemptsMade ≤ fuel := by
  intro fuel
  induction fuel with
  | zero => intro i; exact Nat.le_refl 0
  | succ f ih =>
    intro i
    unfold sendWithRetryGo
    rcases ho : outcomes i with m | st | e <;> simp [ho]
    exact ih (i + 1)

/-- When every attempt in the budget rejects at transport level,
`sendWithRetryGo` delays after each one and finally throws `MessageFailed`
carrying the proposed update and the stored channel. -/
theorem sendWithRetryGo_exhaust (u : ChannelUpdate) (s : ChannelState)
    (outcomes : Nat → AttemptOutcome) :
    ∀ fuel i, (∀ j, j < fuel → (outcomes (i + j)).isSendFail = true) →
      sendWithRetryGo u s outcomes i fuel =
        { result := .error ⟨.MessageFailed, some u, some s, noCtx⟩,
          attemptsMade := fuel, delays := List.replicate fuel 3000 } := by
  intro fuel
  induction fuel with
  | zero => intro i _; rfl
  | succ f ih =>
    intro i h
    have h0 := h 0 (Nat.succ_pos f)
    rw [Nat.add_zero] at h0
    unfold sendWithRetryGo
    rcases ho : outcomes i with m | st | e
    · have hrest : ∀ j, j < f → (outcomes (i + 1 + j)).isSendFail = true := by
        intro j hj
        have := h (j + 1) (Nat.succ_lt_succ hj)
        rwa [show i + (j + 1) = i + 1 + j by omega] at this
      simp only [ih (i + 1) hrest]
      simp [List.replicate_succ]
    · rw [ho] at h0; simp [AttemptOutcome.isSendFail] at h0
    · rw [ho] at h0; simp [AttemptOutcome.isSendFail] at h0

/-- When the first `d` attempts reject at transport level and attempt `d`
(within budget) resolves, `sendWithRetryGo` returns that attempt's resolved
value after `d + 1` attempts and `d` delays of 3000. -/
theorem sendWithRetryGo_first_resolved (u : ChannelUpdate) (s : ChannelState)
    (outcomes : Nat → AttemptOutcome) :
    ∀ d fuel i, d < fuel →
      (∀ j, j < d → (outcomes (i + j)).isSendFail = true) →
      (outcomes (i + d)).isSendFail = false →
      sendWithRetryGo u s outcomes i fuel =
        { result := resolveOf (outcomes (i + d)),
          attemptsMade := d + 1, delays := List.replicate d 3000 } := by
  intro d
  induction d with
  | zero =>
    intro fuel i hf hprev hres
    rw [Nat.add_zero] at hres ⊢
    match fuel, hf with
    | f + 1, _ =>
      unfold sendWithRetryGo
      rcases ho : outcomes i with m | st | e
      · rw [ho] at hres; simp [AttemptOutcome.isSendFail] at hres
      · simp [resolveOf, ho]
      · simp [resolveOf, ho]
  | succ d ih =>
    intro fuel i hf hprev hres
    match fuel, hf with
    | f + 1, hf =>
      have h0 := hprev 0 (Nat.succ_pos d)
      rw [Nat.add_zero] at h0
      unfold sendWithRetryGo
      rcases ho : outcomes i with m | st | e
      · have hrest : ∀ j, j < d → (outcomes (i + 1 + j)).isSendFail = true := by
          intro j hj
          have := hprev (j + 1) (Nat.succ_lt_succ hj)
          rwa [show i + (j + 1) = i + 1 + j by omega] at this
        have hres1 : (outcomes (i + 1 + d)).isSendFail = false := by
          rwa [show i + (d + 1) = i + 1 + d by omega] at hres
        simp only [ih f (i + 1) (by omega) hrest hres1]
        simp [List.replicate_succ, show i + 1 + d = i + (d + 1) by omega]
      · rw [ho] at h0; simp [AttemptOutcome.isSendFail] at h0
      · rw [ho] at h0; simp [AttemptOutcome.isSendFail] at h0

/-- Claim C1 (evaluation at the failing input): the outbound driver's
error-bus subscription predicate `errorEvtFilter` accepts an error whose
update carries the same nonce but a *different* channel address — the
source compares the error's channel address with itself, so the claim's
"an error carrying the same nonce but a different channel address never
resolves the attempt" is false of the code. -/
theorem errorEvtFilter_cross_channel :
    errorEvtFilter updC1 errC1 = true
    ∧ errC1.update.map (fun u => u.channelAddress) = some "chanB"
    ∧ updC1.channelAddress = "chanA"
    ∧ ("chanB" : String) ≠ "chanA" := by
  refine ⟨rfl, rfl, rfl, by decide⟩

/-- Claim C2 (evaluation at the failing input): an inbound message at nonce
diff 2 whose `counterpartyLatestUpdate` is absent fails with
`BadSignatures`, not `StaleChannelNonceNoUpdate` — the source dereferences
the absent update inside the signature-verification try/catch, so the
dedicated `StaleChannelNonceNoUpdate` branch is unreachable. -/
theorem inbound_diff_two_absent_update_bad_signatures :
    ((processChannelMessage baseEnv "alice" ⟨upd7, none⟩).outcome.map
        (fun e => e.message)) = some Reason.BadSignatures
    ∧ upd7.nonce = stored5.latestNonce + 2 := by
  exact ⟨rfl, rfl⟩

/-- Claim C6: every inbound update rejected for a stale/ahead nonce, an
oversized nonce gap, bad signatures, missing resync material, or a failed
update application terminates with no store write at all: the handler's
trace records no `saveChannelState` call. -/
theorem inbound_rejected_no_store_write (env : Env) (from_ : String) (data : MessageData)
    (e : ChannelUpdateError)
    (houtcome : (processChannelMessage env from_ data).outcome = some e)
    (hreason : e.message = Reason.StaleUpdateNonce ∨ e.message = Reason.StaleChannelNonce ∨
      e.message = Reason.BadSignatures ∨ e.message = Reason.StaleChannelNonceNoUpdate ∨
      e.message = Reason.ApplyUpdateFailed) :
    (processChannelMessage env from_ data).saves = [] := by
  refine (errorShape_processChannelMessage env from_ data e houtcome).2.2.2 ?_
  rcases hreason with h1 | h1 | h1 | h1 | h1 <;> simp [h1]

/-- Claim C6 witness: the nonce-8 message against the store at nonce 5
(scenario C) is rejected with `StaleChannelNonce` and performs no store
write. -/
theorem inbound_rejected_no_store_write_witness :
    (processChannelMessage baseEnv "alice" ⟨upd8, some upd7⟩).saves = [] := by
  exact inbound_rejected_no_store_write baseEnv "alice" ⟨upd8, some upd7⟩ errC6 rfl
    (Or.inr (Or.inl rfl))

/-- Claim C7: whenever an inbound handler invocation terminates by throwing
an error (`outcome = some e` models the throw propagating to the handler's
supervisor), the error was replied to the sender over the messaging
service exactly when the failing requested update carried exactly one
signature, and it was always posted onto the local error event bus. -/
theorem inbound_error_path_reply_and_post (env : Env) (from_ : String) (data : MessageData)
    (e : ChannelUpdateError)
    (houtcome : (processChannelMessage env from_ data).outcome = some e) :
    (processChannelMessage env from_ data).errorPosts = [some e]
    ∧ (processChannelMessage env from_ data).sends =
        (if data.update.commitment.signatures.length = 1
         then [SentPayload.errorMsg from_ e] else []) := by
  have h := errorShape_processChannelMessage env from_ data e houtcome
  exact ⟨h.1, h.2.1⟩

/-- Claim C7 witness: the single-signed nonce-8 message is rejected, the
error is posted once to the error bus and replied once to the sender. -/
theorem inbound_error_path_reply_and_post_witness :
    (processChannelMessage baseEnv "alice" ⟨upd8, some upd7⟩).errorPosts = [some errC6]
    ∧ (processChannelMessage baseEnv "alice" ⟨upd8, some upd7⟩).sends =
        [SentPayload.errorMsg "alice" errC6] := by
  have h := inbound_error_path_reply_and_post baseEnv "alice" ⟨upd8, some upd7⟩ errC6 rfl
  exact ⟨h.1, h.2⟩

/-- Claim C8: `sendWithRetry` makes at most 5 attempts; the first attempt
that does not reject at transport level (a state or a protocol error
delivered via the event bus) resolves the call immediately — after one
fixed 3000-unit delay per preceding transport rejection — and is never
retried; and when all 5 attempts reject at transport level the call throws
`MessageFailed`. -/
theorem sendWithRetry_retry_policy (update : ChannelUpdate) (storedChannel : ChannelState)
    (outcomes : Nat → AttemptOutcome) :
    (sendWithRetry update storedChannel outcomes).attemptsMade ≤ 5
    ∧ (∀ d, d < 5 → (∀ j, j < d → (outcomes j).isSendFail = true) →
        (outcomes d).isSendFail = false →
        sendWithRetry update storedChannel outcomes =
          { result := resolveOf (outcomes d), attemptsMade := d + 1,
            delays := List.replicate d 3000 })
    ∧ ((∀ j, j < 5 → (outcomes j).isSendFail = true) →
        sendWithRetry update storedChannel outcomes =
          { result := .error ⟨.MessageFailed, some update, some storedChannel, noCtx⟩,
            attemptsMade := 5, delays := List.replicate 5 3000 }) := by
  refine ⟨sendWithRetryGo_attempts_le update storedChannel outcomes 5 0, ?_, ?_⟩
  · intro d hd hprev hres
    have h := sendWithRetryGo_first_resolved update storedChannel outcomes d 5 0 hd
      (by simpa using hprev) (by simpa using hres)
    simpa [sendWithRetry] using h
  · intro h
    have h2 := sendWithRetryGo_exhaust update storedChannel outcomes 5 0 (by simpa using h)
    simpa [sendWithRetry] using h2

/-- Claim C8 witness: with two transport rejections followed by a resolved
state, the driver resolves on the third attempt with two 3000-unit delays;
the bound on the attempt count holds. -/
theorem sendWithRetry_retry_policy_witness :
    sendWithRetry upd6 stored5 retryOutcomesW =
      { result := .ok (.inl stored5), attemptsMade := 3,
        delays := List.replicate 2 3000 } := by
  have h := (sendWithRetry_retry_policy upd6 stored5 retryOutcomesW).2.1 2 (by decide)
    (by decide) (by decide)
  exact h

/-- Claim C9: an inbound message from a peer that is not a channel message
is treated as an error message without any validation: its `error` field —
present or not — is posted onto the local error event bus and the handler
returns with no other side effect. -/
theorem inbound_non_channel_posts_error_field (env : Env) (m : VectorMessage)
    (hfrom : m.from_ ≠ env.publicIdentifier) (hdata : m.data = none) :
    inbound env m =
      { sends := [], errorPosts := [m.error], statePosts := [], saves := [],
        outcome := none } := by
  unfold inbound
  rw [if_neg hfrom, hdata]
  rfl

/-- Claim C9 witness: a non-channel message with an *absent* `error` field
still gets its (absent) error field posted. -/
theorem inbound_non_channel_posts_error_field_witness :
    inbound baseEnv msgNoErrW =
      { sends := [], errorPosts := [none], statePosts := [], saves := [],
        outcome := none } := by
  exact inbound_non_channel_posts_error_field baseEnv msgNoErrW (by decide) rfl

/-- When the signature gate passes and the nonce diff is not positive,
`classifyAndApply` runs `handleError` on the `StaleUpdateNonce` error. -/
theorem classifyAndApply_stale (env : Env) (from_ : String) (data : MessageData)
    (s : ChannelState)
    (hsig : assertBothSignatures env data.update data.latestUpdate = none)
    (hdiff : (data.update.nonce : Int) - (s.latestNonce : Int) ≤ 0) :
    classifyAndApply env from_ data s =
      handleError from_ data.update (staleUpdateError data s) := by
  unfold classifyAndApply
  rw [hsig]
  rw [if_pos hdiff]
  rfl

/-- Claim C5: an inbound channel message whose nonce does not exceed the
stored nonce (the counterparty being behind, or a replay of an
already-applied update) — given that control reaches the nonce
classification, i.e. the signature gate passed — is rejected with
`StaleUpdateNonce`; the error carries the local stored state (hence the
local party's latest update) for the sender's recovery; no store write
and no state post occurs.  Replaying a dual-signed update yields the reply
suppressed (two signatures), never a state mutation. -/
theorem inbound_stale_update_nonce_behavior (env : Env) (from_ : String)
    (data : MessageData) (stored : ChannelState)
    (hstore : env.getChannelState data.update.channelAddress = some stored)
    (hsig : assertBothSignatures env data.update data.latestUpdate = none)
    (hdiff : (data.update.nonce : Int) - (stored.latestNonce : Int) ≤ 0) :
    processChannelMessage env from_ data =
      { sends := if data.update.commitment.signatures.length = 1
                 then [SentPayload.errorMsg from_ (staleUpdateError data stored)] else [],
        errorPosts := [some (staleUpdateError data stored)],
        statePosts := [], saves := [],
        outcome := some (staleUpdateError data stored) }
    ∧ (staleUpdateError data stored).state = some stored := by
  refine ⟨?_, rfl⟩
  have hpc : processChannelMessage env from_ data = classifyAndApply env from_ data stored := by
    unfold processChannelMessage
    rw [hstore]
  rw [hpc, classifyAndApply_stale env from_ data stored hsig hdiff]
  rfl

/-- Claim C5 witness: replaying the dual-signed nonce-5 update against the
store already at nonce 5 yields `StaleUpdateNonce`, no reply (the update
is dual-signed), no store write, no state post. -/
theorem inbound_stale_update_nonce_behavior_witness :
    processChannelMessage baseEnv "alice" ⟨updPrev, some updPrev⟩ =
      { sends := [],
        errorPosts := [some (staleUpdateError ⟨updPrev, some updPrev⟩ stored5)],
        statePosts := [], saves := [],
        outcome := some (staleUpdateError ⟨updPrev, some updPrev⟩ stored5) } := by
  have h := (inbound_stale_update_nonce_behavior baseEnv "alice" ⟨updPrev, some updPrev⟩
    stored5 rfl rfl (by norm_num [updPrev, stored5])).1
  simpa [updPrev] using h

/-- Claim C10: a `setup` update at nonce 0 for a channel with no stored
state — once the signature gate passes — has an empty state with
`latestNonce = 0` synthesized for it and is then rejected with
`StaleUpdateNonce` (diff 0 is not positive), with no store write;
moreover any accepted (normally returning) first-ever `setup` message has
nonce at least 1. -/
theorem inbound_setup_nonce_zero_stale (env : Env) (from_ : String) (data : MessageData)
    (hnostore : env.getChannelState data.update.channelAddress = none)
    (hsetup : data.update.type = UpdateType.setup)
    (hnonce : data.update.nonce = 0)
    (hsig : assertBothSignatures env data.update data.latestUpdate = none) :
    processChannelMessage env from_ data =
      { sends := if data.update.commitment.signatures.length = 1
                 then [SentPayload.errorMsg from_
                   (staleUpdateError data (emptyChannelState env data.update))] else [],
        errorPosts := [some (staleUpdateError data (emptyChannelState env data.update))],
        statePosts := [], saves := [],
        outcome := some (staleUpdateError data (emptyChannelState env data.update)) }
    ∧ (emptyChannelState env data.update).latestNonce = 0
    ∧ (∀ d2 : MessageData, env.getChannelState d2.update.channelAddress = none →
        d2.update.type = UpdateType.setup →
        (processChannelMessage env from_ d2).outcome = none →
        1 ≤ d2.update.nonce) := by
  refine ⟨?_, rfl, ?_⟩
  · have hpc : processChannelMessage env from_ data =
        classifyAndApply env from_ data (emptyChannelState env data.update) := by
      unfold processChannelMessage
      rw [hnostore, if_neg (by simp [hsetup])]
    have hz : (data.update.nonce : Int) -
        ((emptyChannelState env data.update).latestNonce : Int) ≤ 0 := by
      show (data.update.nonce : Int) - ((0 : Nat) : Int) ≤ 0
      omega
    rw [hpc, classifyAndApply_stale env from_ data (emptyChannelState env data.update) hsig hz]
    rfl
  · intro d2 h1 h2 h3
    have hpc2 : processChannelMessage env from_ d2 =
        classifyAndApply env from_ d2 (emptyChannelState env d2.update) := by
      unfold processChannelMessage
      rw [h1, if_neg (by simp [h2])]
    rw [hpc2] at h3
    by_contra hlt
    rcases hs : assertBothSignatures env d2.update d2.latestUpdate with _ | msg
    · have hz2 : (d2.update.nonce : Int) -
          ((emptyChannelState env d2.update).latestNonce : Int) ≤ 0 := by
        show (d2.update.nonce : Int) - ((0 : Nat) : Int) ≤ 0
        omega
      rw [classifyAndApply_stale env from_ d2 (emptyChannelState env d2.update) hs hz2] at h3
      simp [handleError] at h3
    · unfold classifyAndApply at h3
      rw [hs] at h3
      simp [handleError] at h3

/-- Claim C10 witness: a `setup` update at nonce 0 for the unknown channel
"chan2" (with verifiable signatures and an attached counterparty update)
is rejected with `StaleUpdateNonce` against the synthesized empty state. -/
theorem inbound_setup_nonce_zero_stale_witness :
    (processChannelMessage baseEnv "alice" ⟨upd0setup, some updPrev⟩).outcome =
      some (staleUpdateError ⟨upd0setup, some updPrev⟩ (emptyChannelState baseEnv upd0setup))
    ∧ (emptyChannelState baseEnv upd0setup).latestNonce = 0 := by
  have h := inbound_setup_nonce_zero_stale baseEnv "alice" ⟨upd0setup, some updPrev⟩
    rfl rfl rfl rfl
  exact ⟨by rw [h.1], h.2.1⟩

/-- Claim C3 (counterexample): on scenario A — stored nonce 5, inbound
single-signed proposal at nonce 6 that passes all checks — the handler
persists exactly one state, and that state's latest update is the original
*single-signed* update (one signature, not two): the second signature is
computed after `response` and attached only to the reply, so the claim's
"persists a channel state whose latest update is dual-signed" is false. -/
theorem inbound_proposal_persisted_update_single_signed :
    (processChannelMessage baseEnv "alice" ⟨upd6, some updPrev⟩).saves = [resp6]
    ∧ resp6.latestUpdate = some upd6
    ∧ upd6.commitment.signatures.length = 1
    ∧ (processChannelMessage baseEnv "alice" ⟨upd6, some updPrev⟩).outcome = none := by
  exact ⟨rfl, rfl, rfl, rfl⟩

/-- The spec-modelled Update-Application function honors the contract:
a successfully applied state's `latestUpdate` is the applied update. -/
theorem applyUpdate_latest (u : ChannelUpdate) (s s2 : ChannelState)
    (h : applyUpdate u s = .ok s2) : s2.latestUpdate = some u := by
  unfold applyUpdate at h
  split at h
  · injection h with h2
    rw [← h2]
  · simp at h

/-- A `finalizeUpdate` invocation on a single-signed update that returns
normally applied the update successfully, saved the applied state exactly
once, and replied with the countersigned update. -/
theorem finalizeUpdate_single_ok (env : Env) (from_ : String) (ru : ChannelUpdate)
    (clu : Option ChannelUpdate) (ps : ChannelState)
    (hsingle : ru.commitment.signatures.length = 1)
    (hok : (finalizeUpdate env from_ ru clu ps).outcome = none) :
    ∃ resp, env.applyUpdate ru ps = .ok resp ∧
      finalizeUpdate env from_ ru clu ps =
        { sends := [SentPayload.channelMsg from_
            { ru with commitment := (addSignature ru.commitment
                (env.signMessage ru.commitment.getHash)) }
            resp.latestUpdate],
          errorPosts := [], statePosts := [], saves := [resp], outcome := none } := by
  rcases ha : env.applyUpdate ru ps with msg | resp
  · exfalso
    have hfe : finalizeUpdate env from_ ru clu ps =
        handleError from_ ru
          ⟨.ApplyUpdateFailed, some ru, some ps, ⟨clu, none, some msg⟩⟩ := by
      unfold finalizeUpdate
      rw [ha]
    rw [hfe] at hok
    simp [handleError] at hok
  · rcases hs : env.saveChannelState resp with _ | msg
    · refine ⟨resp, rfl, ?_⟩
      unfold finalizeUpdate
      simp only [ha]
      rw [if_pos hsingle]
      simp only [hs]
    · exfalso
      have hfe : finalizeUpdate env from_ ru clu ps =
          withSaveAttempt resp
            (handleError from_ ru
              ⟨.SaveChannelFailed, some ru, some ps, ⟨none, none, some msg⟩⟩) := by
        unfold finalizeUpdate
        simp only [ha]
        rw [if_pos hsingle]
        simp only [hs]
      rw [hfe] at hok
      simp [withSaveAttempt, handleError] at hok

/-- A `classifyAndApply` invocation that returns normally passed the
signature gate and the nonce classification, and ran `finalizeUpdate` on
some established prior state. -/
theorem classifyAndApply_ok_reaches_finalize (env : Env) (from_ : String)
    (data : MessageData) (s : ChannelState)
    (hok : (classifyAndApply env from_ data s).outcome = none) :
    ∃ ps, classifyAndApply env from_ data s =
      finalizeUpdate env from_ data.update data.latestUpdate ps := by
  rcases hsig : assertBothSignatures env data.update data.latestUpdate with _ | msg
  · by_cases h1 : (data.update.nonce : Int) - (s.latestNonce : Int) ≤ 0
    · exfalso
      rw [classifyAndApply_stale env from_ data s hsig h1] at hok
      simp [handleError] at hok
    · by_cases h2 : 3 ≤ (data.update.nonce : Int) - (s.latestNonce : Int)
      · exfalso
        have heq : classifyAndApply env from_ data s =
            handleError from_ data.update
              ⟨.StaleChannelNonce, some data.update, some s,
                ⟨data.latestUpdate, none, none⟩⟩ := by
          unfold classifyAndApply
          rw [hsig]
          rw [if_neg h1, if_pos h2]
        rw [heq] at hok
        simp [handleError] at hok
      · by_cases h3 : (data.update.nonce : Int) - (s.latestNonce : Int) = 2
        · rcases hclu : data.latestUpdate with _ | clu
          · exfalso
            have heq : classifyAndApply env from_ data s =
                handleError from_ data.update
                  ⟨.StaleChannelNonceNoUpdate, none, some s,
                    ⟨none, some data.update, none⟩⟩ := by
              unfold classifyAndApply
              rw [hsig]
              rw [if_neg h1, if_neg h2, if_pos h3, hclu]
            rw [heq] at hok
            simp [handleError] at hok
          · have heq : classifyAndApply env from_ data s =
                (match env.applyUpdate clu s with
                 | .error msg2 =>
                   handleError from_ data.update
                     ⟨.ApplyUpdateFailed, some clu, some s,
                       ⟨none, some data.update, some msg2⟩⟩
                 | .ok previousState =>
                   finalizeUpdate env from_ data.update (some clu) previousState) := by
              unfold classifyAndApply
              rw [hsig]
              rw [if_neg h1, if_neg h2, if_pos h3, hclu]
            rcases happ : env.applyUpdate clu s with msg2 | ps
            · exfalso
              rw [heq, happ] at hok
              simp [handleError] at hok
            · refine ⟨ps, ?_⟩
              rw [heq, happ]
        · refine ⟨s, ?_⟩
          unfold classifyAndApply
          rw [hsig]
          rw [if_neg h1, if_neg h2, if_neg h3]
  · exfalso
    have heq : classifyAndApply env from_ data s =
        handleError from_ data.update
          ⟨.BadSignatures, some data.update, some s,
            ⟨data.latestUpdate, none, some msg⟩⟩ := by
      unfold classifyAndApply
      rw [hsig]
    rw [heq] at hok
    simp [handleError] at hok

/-- A `processChannelMessage` invocation that returns normally reached
`finalizeUpdate` on some established prior state: every route — stored
state with nonce diff 1, stored state with nonce diff 2 after a resync,
or a first-ever `setup` against the synthesized empty state — funnels
through it. -/
theorem processChannelMessage_ok_reaches_finalize (env : Env) (from_ : String)
    (data : MessageData)
    (hok : (processChannelMessage env from_ data).outcome = none) :
    ∃ ps, processChannelMessage env from_ data =
      finalizeUpdate env from_ data.update data.latestUpdate ps := by
  rcases hg : env.getChannelState data.update.channelAddress with _ | s0
  · by_cases ht : data.update.type = UpdateType.setup
    · have hpc : processChannelMessage env from_ data =
          classifyAndApply env from_ data (emptyChannelState env data.update) := by
        unfold processChannelMessage
        rw [hg, if_neg (by simp [ht])]
      rw [hpc] at hok ⊢
      exact classifyAndApply_ok_reaches_finalize env from_ data _ hok
    · exfalso
      have hpc : processChannelMessage env from_ data =
          handleError from_ data.update
            ⟨.ChannelNotFound, some data.update, none, noCtx⟩ := by
        unfold processChannelMessage
        rw [hg, if_pos ht]
      rw [hpc] at hok
      simp [handleError] at hok
  · have hpc : processChannelMessage env from_ data = classifyAndApply env from_ data s0 := by
      unfold processChannelMessage
      rw [hg]
    rw [hpc] at hok ⊢
    exact classifyAndApply_ok_reaches_finalize env from_ data s0 hok

/-- Claim C3 (amended): *every* inbound channel message that passes
classification and application (the invocation returns normally, on any
route — nonce diff 1, diff 2 with resync, or first-ever `setup` against
the synthesized state) and whose requested update carries exactly one
signature is countersigned — the reply to the sender carries the
dual-signed (two-signature) commitment — the handler persists the applied
state exactly once, and nothing is published onto the local state event
bus; but the *persisted* state's latest update is the original
single-signed update (the countersignature lives only in the reply),
given the update-application contract (an applied state's `latestUpdate`
is the applied update). -/
theorem inbound_proposal_countersign_behavior (env : Env) (from_ : String)
    (data : MessageData)
    (hcontract : ∀ u s s2, env.applyUpdate u s = .ok s2 → s2.latestUpdate = some u)
    (hsingle : data.update.commitment.signatures.length = 1)
    (hok : (processChannelMessage env from_ data).outcome = none) :
    ∃ resp : ChannelState,
      processChannelMessage env from_ data =
        { sends := [SentPayload.channelMsg from_
            { data.update with commitment := (addSignature data.update.commitment
                (env.signMessage data.update.commitment.getHash)) }
            resp.latestUpdate],
          errorPosts := [], statePosts := [], saves := [resp], outcome := none }
      ∧ resp.latestUpdate = some data.update
      ∧ resp.latestUpdate.map (fun u => u.commitment.signatures.length) = some 1
      ∧ (addSignature data.update.commitment
          (env.signMessage data.update.commitment.getHash)).signatures.length = 2 := by
  obtain ⟨ps, hps⟩ := processChannelMessage_ok_reaches_finalize env from_ data hok
  rw [hps] at hok
  obtain ⟨resp, ha, hfe⟩ :=
    finalizeUpdate_single_ok env from_ data.update data.latestUpdate ps hsingle hok
  have hlatest : resp.latestUpdate = some data.update := hcontract _ _ _ ha
  refine ⟨resp, ?_, hlatest, ?_, ?_⟩
  · rw [hps, hfe]
  · rw [hlatest]
    simp [hsingle]
  · simp only [addSignature, List.length_append, List.length_singleton]
    omega

/-- Claim C3 witness: scenario A at the concrete fixtures (stored nonce 5,
single-signed proposal at nonce 6, spec-modelled apply) — the reply
carries the dual-signed commitment, the store receives the applied state,
whose latest update carries exactly one signature, and nothing is posted
to the state event bus. -/
theorem inbound_proposal_countersign_behavior_witness :
    ∃ resp : ChannelState,
      processChannelMessage baseEnv "alice" ⟨upd6, some updPrev⟩ =
        { sends := [SentPayload.channelMsg "alice"
            { upd6 with commitment := (addSignature upd6.commitment
                (baseEnv.signMessage upd6.commitment.getHash)) }
            resp.latestUpdate],
          errorPosts := [], statePosts := [], saves := [resp], outcome := none }
      ∧ resp.latestUpdate = some upd6
      ∧ resp.latestUpdate.map (fun u => u.commitment.signatures.length) = some 1
      ∧ (addSignature upd6.commitment
          (baseEnv.signMessage upd6.commitment.getHash)).signatures.length = 2 := by
  exact inbound_proposal_countersign_behavior baseEnv "alice" ⟨upd6, some updPrev⟩
    (fun u s s2 h => applyUpdate_latest u s s2 h) rfl rfl

/-- Claim C4: once the first outbound round resolves with a
`StaleUpdateNonce` error carrying a state whose latest update is present:
a nonce mismatch with the proposed update fails with `StaleChannelNonce`;
on a match, a failed application fails with `ApplyUpdateFailed`, a failed
persist fails with `SaveChannelFailed`, and otherwise the resynced state
is persisted and the driver performs exactly one more round and
propagates that round's result — `outboundSecondRound` wraps any resolved
error, `StaleUpdateNonce` included, with no second resync. -/
theorem outbound_stale_resync_behavior (update : ChannelUpdate) (env : Env)
    (stored : ChannelState) (e : ChannelUpdateError) (s : ChannelState) (lu : ChannelUpdate)
    (hstore : env.getChannelState update.channelAddress = some stored)
    (hround1 : (sendWithRetry update stored (env.attempt 0)).result = .ok (.inr e))
    (hmsg : e.message = Reason.StaleUpdateNonce)
    (hstate : e.state = some s)
    (hlu : s.latestUpdate = some lu) :
    (lu.nonce ≠ update.nonce →
      outbound update env =
        { result := .error (.channelError
            ⟨.StaleChannelNonce, some update, some stored, ⟨some lu, none, none⟩⟩),
          saves := [] })
    ∧ (∀ msg, lu.nonce = update.nonce → env.applyUpdate lu stored = .error msg →
        outbound update env =
          { result := .error (.channelError
              ⟨.ApplyUpdateFailed, some lu, some stored, noCtx⟩),
            saves := [] })
    ∧ (∀ ns msg, lu.nonce = update.nonce → env.applyUpdate lu stored = .ok ns →
        env.saveChannelState ns = some msg →
        outbound update env =
          { result := .error (.channelError
              ⟨.SaveChannelFailed, some lu, some stored, noCtx⟩),
            saves := [ns] })
    ∧ (∀ ns, lu.nonce = update.nonce → env.applyUpdate lu stored = .ok ns →
        env.saveChannelState ns = none →
        outbound update env = outboundSecondRound update env stored ns) := by
  have hob1 : outbound update env = outboundHandleResult update env stored := by
    unfold outbound
    rw [hstore]
  have hob2 : outboundHandleResult update env stored = outboundOnError update env stored e := by
    unfold outboundHandleResult
    rw [hround1]
  have hob3 : outboundOnError update env stored e = outboundResync update env stored lu := by
    unfold outboundOnError
    simp only [hmsg, hstate, hlu]
    simp
  have hchain : outbound update env = outboundResync update env stored lu :=
    (hob1.trans hob2).trans hob3
  refine ⟨?_, ?_, ?_, ?_⟩
  · intro hne
    rw [hchain]
    unfold outboundResync
    rw [if_pos hne]
  · intro msg heq happ
    have hn : ¬(lu.nonce ≠ update.nonce) := by simp [heq]
    rw [hchain]
    unfold outboundResync
    rw [if_neg hn]
    simp only [happ]
  · intro ns msg heq happ hsv
    have hn : ¬(lu.nonce ≠ update.nonce) := by simp [heq]
    rw [hchain]
    unfold outboundResync
    rw [if_neg hn]
    simp only [happ, hsv]
  · intro ns heq happ hsv
    have hn : ¬(lu.nonce ≠ update.nonce) := by simp [heq]
    rw [hchain]
    unfold outboundResync
    rw [if_neg hn]
    simp only [happ, hsv]

/-- Claim C4 witness: at the concrete fixtures (scenario D shaped), the
first round resolves stale with the counterparty's nonce-6 state, the
driver applies and persists the dual-signed nonce-6 update locally, and
the second round's resolved nonce-7 state is returned. -/
theorem outbound_stale_resync_behavior_witness :
    outbound upd6 env4 = { result := .ok st7, saves := [resyncedSt6] } := by
  have h := (outbound_stale_resync_behavior upd6 env4 stored5 staleErr6 counterSt6 updAck6
    rfl rfl rfl rfl rfl).2.2.2 resyncedSt6 rfl rfl rfl
  exact h

end VectorSync
